import Mathlib

/-!
Verification of the KeyClick repository: a shallow embedding of its
state machine (`state_machine.py`), configuration persistence
(`config_manager.py`), controller dispatch logic (`main.py`),
window-focus check (`action_executor.py`) and one-shot mouse capture
(`input_listener.py`), together with theorems settling the spec claims.
-/

namespace KeyClick

/-- The four application states of `state_machine.py` (`AppState`). -/
inductive AppState where
  | NORMAL
  | CONFIG_WAIT_KEY
  | CONFIG_WAIT_CLICK
  | DISABLED
deriving DecidableEq, Repr

/-- `VALID_TRANSITIONS` from `state_machine.py`: state to the set of valid
next states (embedded as a list). -/
def VALID_TRANSITIONS : AppState → List AppState
  | .NORMAL => [.CONFIG_WAIT_KEY, .DISABLED]
  | .CONFIG_WAIT_KEY => [.CONFIG_WAIT_CLICK, .NORMAL]
  | .CONFIG_WAIT_CLICK => [.NORMAL]
  | .DISABLED => [.NORMAL]

/-- Result of `StateMachine.transition`: the returned boolean, the stored
state afterwards, and the `state_changed` signals emitted during the call. -/
structure TransitionResult where
  ok : Bool
  state : AppState
  emitted : List AppState
deriving DecidableEq, Repr

/-- `StateMachine.transition` from `state_machine.py`: no-op success when the
target equals the current state; otherwise succeeds, stores the new state and
emits `state_changed` exactly when the target is in the allowed set of the
current state; otherwise fails leaving the state unchanged. -/
def transition (s target : AppState) : TransitionResult :=
  if target = s then ⟨true, s, []⟩
  else if target ∈ VALID_TRANSITIONS s then ⟨true, target, [target]⟩
  else ⟨false, s, []⟩

/-- A JSON value, as produced by the `json` module used in
`config_manager.py` (floats do not occur in this application's data, so
numbers are embedded as integers). -/
inductive JVal where
  | null
  | bool (b : Bool)
  | num (n : Int)
  | str (s : String)
  | arr (xs : List JVal)
  | obj (fs : List (String × JVal))

/-- Lookup of a key in a JSON object's field list (Python `dict.get`). -/
def dictGet (fs : List (String × JVal)) (k : String) : Option JVal :=
  match fs with
  | [] => none
  | (k₀, v) :: rest => if k₀ = k then some v else dictGet rest k

/-- Assignment `d[k] = v` on a JSON object's field list: an existing key is
updated in place, a new key is appended at the end (Python dict semantics). -/
def dictSet (fs : List (String × JVal)) (k : String) (v : JVal) :
    List (String × JVal) :=
  match fs with
  | [] => [(k, v)]
  | (k₀, v₀) :: rest =>
      if k₀ = k then (k, v) :: rest else (k₀, v₀) :: dictSet rest k v

/-- Python truthiness (`if m:`) of a JSON value. -/
def jTruthy : JVal → Bool
  | .null => false
  | .bool b => b
  | .num n => n != 0
  | .str s => !(s == "")
  | .arr xs => !xs.isEmpty
  | .obj fs => !fs.isEmpty

/-- Whether a JSON value is the given Python string (`elem == key` for a
string key compares unequal to every non-string value). -/
def jIsStr (v : JVal) (s : String) : Bool :=
  match v with
  | .str t => t == s
  | _ => false

/-- Boolean membership test of one character list inside another as a prefix
(`pfx needle hay`). -/
def pfx : List Char → List Char → Bool
  | [], _ => true
  | _ :: _, [] => false
  | a :: as, b :: bs => a == b && pfx as bs

/-- Boolean substring test (`needle in hay` on Python strings, over the
character lists). -/
def subOf (needle : List Char) : List Char → Bool
  | [] => needle.isEmpty
  | c :: rest => pfx needle (c :: rest) || subOf needle rest

/-- Python `key in d` for a JSON value `d`: key lookup on a dict, element
membership on a list, substring test on a string; a TypeError (modelled as
`Except.error`) on the remaining kinds, which are not iterable. -/
def jContains (v : JVal) (k : String) : Except Unit Bool :=
  match v with
  | .obj fs => .ok (dictGet fs k).isSome
  | .arr xs => .ok (xs.any (fun x => jIsStr x k))
  | .str s => .ok (subOf k.toList s.toList)
  | _ => .error ()

/-- Python `d[k] = v` on a JSON value: succeeds only on a dict; raises a
TypeError (modelled as `Except.error`) otherwise. -/
def jSetItem (v : JVal) (k : String) (x : JVal) : Except Unit JVal :=
  match v with
  | .obj fs => .ok (.obj (dictSet fs k x))
  | _ => .error ()

/-- The `settings` part of `DEFAULT_CONFIG` in `config_manager.py`. -/
def defaultSettings : JVal :=
  .obj [("restore_mouse_position", .bool true),
        ("require_foreground_window", .bool false),
        ("target_window_title", .str "Valeton")]

/-- `DEFAULT_CONFIG` from `config_manager.py`. -/
def DEFAULT_CONFIG : JVal :=
  .obj [("mappings", .obj []), ("settings", defaultSettings)]

/-- What the configuration file on disk yields when read: `missing` (the
path does not exist), `unparseable` (opening or JSON-decoding raises
`OSError`/`JSONDecodeError`), or `parsed v` (reading succeeds and the JSON
text parses to the value `v`). -/
inductive FileContent where
  | missing
  | unparseable
  | parsed (v : JVal)

/-- `ConfigManager.load`: returns the in-memory `_data` paired with whether
`save()` was called during loading, or `Except.error` when an uncaught
exception escapes (the `except` clause catches only `JSONDecodeError` and
`OSError`). A missing or unparseable file becomes the default configuration
and is saved; a parsed document gets its absent `mappings` / `settings`
top-level fields filled with the defaults (present fields untouched). -/
def configLoad : FileContent → Except Unit (JVal × Bool)
  | .missing => .ok (DEFAULT_CONFIG, true)
  | .unparseable => .ok (DEFAULT_CONFIG, true)
  | .parsed v => do
      let hasM ← jContains v "mappings"
      let v₁ ← if hasM then Except.ok v else jSetItem v "mappings" (.obj [])
      let hasS ← jContains v₁ "settings"
      let v₂ ←
        if hasS then Except.ok v₁ else jSetItem v₁ "settings" defaultSettings
      .ok (v₂, false)

/-- `ConfigManager.save` followed by re-reading the file: `json.dump` writes
the current `_data` and the next read parses back to the same value (exact
for the string/integer/boolean data this application stores). -/
def configSave (v : JVal) : FileContent := .parsed v

/-- `ConfigManager.get_mappings`: `dict(self._data.get("mappings", {}))`.
Errors when `_data` is not a dict (AttributeError) or the `mappings` value
is not a dict (TypeError in the `dict(...)` call). -/
def get_mappings (v : JVal) : Except Unit (List (String × JVal)) :=
  match v with
  | .obj fs =>
      match dictGet fs "mappings" with
      | none => .ok []
      | some (.obj mfs) => .ok mfs
      | some _ => .error ()
  | _ => .error ()

/-- `ConfigManager.get_settings`: `dict(self._data.get("settings", {}))`. -/
def get_settings (v : JVal) : Except Unit (List (String × JVal)) :=
  match v with
  | .obj fs =>
      match dictGet fs "settings" with
      | none => .ok []
      | some (.obj sfs) => .ok sfs
      | some _ => .error ()
  | _ => .error ()

/-- `ConfigManager.get_setting`:
`self._data.get("settings", {}).get(key, default)`; errors when the stored
`settings` value is not a dict. -/
def get_setting (v : JVal) (key : String) (dflt : JVal) : Except Unit JVal :=
  match v with
  | .obj fs =>
      match dictGet fs "settings" with
      | none => .ok dflt
      | some (.obj sfs) => .ok ((dictGet sfs key).getD dflt)
      | some _ => .error ()
  | _ => .error ()

/-- `ConfigManager.get_mapping`: `m = self._data["mappings"].get(key)`; when
`m` is truthy returns `(m["x"], m["y"])`, else `None`. Errors mirror the
uncaught KeyError / AttributeError / TypeError paths on malformed data. -/
def get_mapping (v : JVal) (key : String) : Except Unit (Option (JVal × JVal)) :=
  match v with
  | .obj fs =>
      match dictGet fs "mappings" with
      | none => .error ()
      | some (.obj mfs) =>
          match dictGet mfs key with
          | none => .ok none
          | some m =>
              if jTruthy m then
                match m with
                | .obj kv =>
                    match dictGet kv "x", dictGet kv "y" with
                    | some x, some y => .ok (some (x, y))
                    | _, _ => .error ()
                | _ => .error ()
              else .ok none
      | some _ => .error ()
  | _ => .error ()

/-- `ConfigManager.set_mapping`:
`self._data["mappings"][key] = {"x": x, "y": y}` followed by `save()`;
errors mirror the uncaught KeyError / TypeError paths on malformed data. -/
def set_mapping (v : JVal) (key : String) (x y : Int) : Except Unit JVal :=
  match v with
  | .obj fs =>
      match dictGet fs "mappings" with
      | none => .error ()
      | some (.obj mfs) =>
          .ok (.obj (dictSet fs "mappings"
            (.obj (dictSet mfs key (.obj [("x", .num x), ("y", .num y)])))))
      | some _ => .error ()
  | _ => .error ()

/-- What the win32 foreground-window lookup in
`action_executor.is_target_window_foreground` can observe: `noWin32`
(pywin32 not importable), `fgError` (any exception inside the `try` block),
or `fgTitle t` (the focused window's title is `t`). -/
inductive FocusInfo where
  | noWin32
  | fgError
  | fgTitle (t : String)

/-- Python `str.lower()` as the character-wise lowercase map over the
string's characters. -/
def lowerChars (s : String) : List Char :=
  s.toList.map Char.toLower

/-- `action_executor.is_target_window_foreground`: case-insensitive
substring test of the configured title inside the focused window's title;
returns `true` (fail-open) without pywin32 and on any exception — including
the AttributeError raised inside the `try` block when the configured title
is not a string. -/
def is_target_window_foreground (window_title : JVal) (f : FocusInfo) : Bool :=
  match f with
  | .noWin32 => true
  | .fgError => true
  | .fgTitle fg =>
      match window_title with
      | .str s => subOf (lowerChars s) (lowerChars fg)
      | _ => true

/-- The `AppController` state relevant to dispatch (`main.py`): the state
machine's stored state, `_pending_key`, the `ConfigManager`'s `_data`, and
whether the one-shot `MouseClickCapture` is active. -/
structure Ctrl where
  state : AppState
  pending_key : Option String
  data : JVal
  capture_active : Bool

/-- `AppController._on_key_pressed` (`main.py`): returns the updated
controller and the list of `execute_click(x, y, restore_position)` actuator
invocations made, or `Except.error` when an uncaught exception escapes a
config accessor. In `CONFIG_WAIT_KEY` the key becomes pending, the machine
moves to `CONFIG_WAIT_CLICK` and the one-shot mouse capture is started; in
`NORMAL` a bound key is dispatched subject to the foreground-window gate;
in the other states the handler does nothing. -/
def onKeyPressed (c : Ctrl) (key_name : String) (focus : FocusInfo) :
    Except Unit (Ctrl × List (JVal × JVal × JVal)) :=
  if c.state = .CONFIG_WAIT_KEY then
    let c₁ : Ctrl := { c with pending_key := some key_name }
    let c₂ : Ctrl := { c₁ with state := (transition c₁.state .CONFIG_WAIT_CLICK).state }
    .ok ({ c₂ with capture_active := true }, [])
  else if c.state = .NORMAL then do
    let mapping ← get_mapping c.data key_name
    match mapping with
    | none => .ok (c, [])
    | some (x, y) => do
        let req ← get_setting c.data "require_foreground_window" (.bool false)
        let proceed ←
          if jTruthy req then do
            let title ← get_setting c.data "target_window_title" (.str "Valeton")
            Except.ok (is_target_window_foreground title focus)
          else Except.ok true
        if proceed then do
          let restore ← get_setting c.data "restore_mouse_position" (.bool true)
          .ok (c, [(x, y, restore)])
        else .ok (c, [])
  else .ok (c, [])

/-- `AppController._on_mouse_clicked` (`main.py`): a stale event (state not
`CONFIG_WAIT_CLICK`) is dropped; otherwise the pending key is consumed and,
when present, the binding is committed via `set_mapping`, and the machine
transitions back to `NORMAL`. -/
def onMouseClicked (c : Ctrl) (x y : Int) : Except Unit Ctrl :=
  if c.state ≠ .CONFIG_WAIT_CLICK then .ok c
  else
    let c₁ : Ctrl := { c with pending_key := none }
    match c.pending_key with
    | some k => do
        let d ← set_mapping c₁.data k x y
        let c₂ : Ctrl := { c₁ with data := d }
        .ok { c₂ with state := (transition c₂.state .NORMAL).state }
    | none => .ok { c₁ with state := (transition c₁.state .NORMAL).state }

/-- `AppController._on_toggle_system` (`main.py`): from `DISABLED` attempt
`NORMAL`, from `NORMAL` attempt `DISABLED`, otherwise do nothing. -/
def onToggleSystem (c : Ctrl) : Ctrl :=
  if c.state = .DISABLED then
    { c with state := (transition c.state .NORMAL).state }
  else if c.state = .NORMAL then
    { c with state := (transition c.state .DISABLED).state }
  else c

/-- The `MouseClickCapture` listener state (`input_listener.py`): the
`_active` flag and whether the underlying pynput listener thread is still
running (a callback returning `False` stops it). -/
structure MouseClickCapture where
  active : Bool
  running : Bool
deriving DecidableEq, Repr

/-- Mouse buttons distinguished by `MouseClickCapture._on_click`. -/
inductive MouseButton where
  | left
  | right
  | middle
deriving DecidableEq, Repr

/-- A raw mouse event delivered to `MouseClickCapture._on_click`. -/
structure MouseEvent where
  x : Int
  y : Int
  button : MouseButton
  pressed : Bool
deriving DecidableEq, Repr

/-- `button == mouse.Button.left and pressed`. -/
def isLeftPress (e : MouseEvent) : Bool :=
  e.button == .left && e.pressed

/-- `MouseClickCapture.start`: a no-op when already active, otherwise sets
`_active` and starts the listener thread. -/
def captureStart (cap : MouseClickCapture) : MouseClickCapture :=
  if cap.active then cap else { active := true, running := true }

/-- `MouseClickCapture._on_click` on one event: nothing is delivered once
the listener thread has stopped; an inactive capture stops the listener
without emitting; an active capture emits `(x, y)` and deactivates on a
left-button press, and ignores every other event. Returns the new listener
state and the `mouse_clicked` emissions. -/
def onClick (cap : MouseClickCapture) (e : MouseEvent) :
    MouseClickCapture × List (Int × Int) :=
  if !cap.running then (cap, [])
  else if !cap.active then ({ cap with running := false }, [])
  else if isLeftPress e then
    ({ active := false, running := false }, [(e.x, e.y)])
  else (cap, [])

/-- Folds `onClick` over a sequence of raw mouse events, collecting all
`mouse_clicked` emissions. -/
def runCapture (cap : MouseClickCapture) : List MouseEvent →
    MouseClickCapture × List (Int × Int)
  | [] => (cap, [])
  | e :: rest =>
      let step := onClick cap e
      let tail := runCapture step.1 rest
      (tail.1, step.2 ++ tail.2)

/-- Embedding-side encoding of a well-typed binding set (string key-names
mapped to integer coordinates) as the JSON `mappings` object's fields. -/
def encodeMappings (bs : List (String × Int × Int)) : List (String × JVal) :=
  bs.map fun b => (b.1, .obj [("x", .num b.2.1), ("y", .num b.2.2)])

/-- Embedding-side encoding of a well-typed settings record as the JSON
`settings` object's fields. -/
def encodeSettings (restore foreground : Bool) (title : String) :
    List (String × JVal) :=
  [("restore_mouse_position", .bool restore),
   ("require_foreground_window", .bool foreground),
   ("target_window_title", .str title)]

/-- A full well-typed configuration document. -/
def mkConfigDoc (bs : List (String × Int × Int)) (restore foreground : Bool)
    (title : String) : JVal :=
  .obj [("mappings", .obj (encodeMappings bs)),
        ("settings", .obj (encodeSettings restore foreground title))]

end KeyClick

namespace KeyClick

theorem bind_ok_eq {ε α β : Type} (a : α) (f : α → Except ε β) :
    (Except.ok a >>= f) = f a := rfl

theorem bind_error_eq {ε α β : Type} (e : ε) (f : α → Except ε β) :
    ((Except.error e : Except ε α) >>= f) = Except.error e := rfl

theorem pfx_iff (n : List Char) : ∀ h : List Char,
    (pfx n h = true ↔ ∃ t, n ++ t = h) := by
  induction n with
  | nil => intro h; simp [pfx]
  | cons a as ih =>
    intro h
    cases h with
    | nil =>
        simp only [pfx, Bool.false_eq_true, false_iff]
        rintro ⟨t, ht⟩
        exact absurd ht (by simp)
    | cons b bs =>
        simp only [pfx, Bool.and_eq_true, beq_iff_eq, ih]
        constructor
        · rintro ⟨rfl, t, rfl⟩
          exact ⟨t, rfl⟩
        · rintro ⟨t, ht⟩
          injection ht with h₁ h₂
          exact ⟨h₁, t, h₂⟩

theorem subOf_iff (n : List Char) : ∀ h : List Char,
    (subOf n h = true ↔ ∃ u v, u ++ (n ++ v) = h) := by
  intro h
  induction h with
  | nil =>
      cases n with
      | nil => simp [subOf]
      | cons a as =>
          simp only [subOf, List.isEmpty_cons, Bool.false_eq_true, false_iff]
          rintro ⟨u, v, huv⟩
          exact absurd huv (by simp)
  | cons c rest ih =>
      simp only [subOf, Bool.or_eq_true, pfx_iff, ih]
      constructor
      · rintro (⟨t, ht⟩ | ⟨u, v, huv⟩)
        · exact ⟨[], t, ht⟩
        · exact ⟨c :: u, v, by rw [List.cons_append, huv]⟩
      · rintro ⟨u, v, huv⟩
        cases u with
        | nil => exact Or.inl ⟨v, by simpa using huv⟩
        | cons c₀ u₀ =>
            injection huv with h₁ h₂
            exact Or.inr ⟨u₀, v, h₂⟩

theorem dictGet_dictSet_self (fs : List (String × JVal)) (k : String) (v : JVal) :
    dictGet (dictSet fs k v) k = some v := by
  induction fs with
  | nil => simp [dictGet, dictSet]
  | cons p rest ih =>
      obtain ⟨k₀, v₀⟩ := p
      by_cases hk : k₀ = k
      · subst hk; simp [dictGet, dictSet]
      · simp [dictGet, dictSet, hk, ih]

theorem get_mapping_set_mapping (v d : JVal) (k : String) (x y : Int)
    (h : set_mapping v k x y = .ok d) :
    get_mapping d k = .ok (some (.num x, .num y)) := by
  cases v with
  | obj fs =>
      simp only [set_mapping] at h
      cases hm : dictGet fs "mappings" with
      | none => rw [hm] at h; cases h
      | some m =>
          rw [hm] at h
          cases m with
          | obj mfs =>
              have hd := (Except.ok.injEq _ _).mp h
              subst hd
              simp [get_mapping, dictGet_dictSet_self, jTruthy, dictGet]
          | null => cases h
          | bool b => cases h
          | num n => cases h
          | str s => cases h
          | arr xs => cases h
  | null => cases h
  | bool b => cases h
  | num n => cases h
  | str s => cases h
  | arr xs => cases h

theorem runCapture_dead (evs : List MouseEvent) (cap : MouseClickCapture)
    (h : cap.running = false) : runCapture cap evs = (cap, []) := by
  induction evs with
  | nil => rfl
  | cons e rest ih => simp [runCapture, onClick, h, ih]

theorem runCapture_char (evs : List MouseEvent) :
    runCapture ⟨true, true⟩ evs =
      match evs.find? isLeftPress with
      | some e => (⟨false, false⟩, [(e.x, e.y)])
      | none => (⟨true, true⟩, []) := by
  induction evs with
  | nil => rfl
  | cons e rest ih =>
      by_cases hl : isLeftPress e = true
      · simp [runCapture, onClick, hl, List.find?_cons,
          runCapture_dead rest ⟨false, false⟩ rfl]
      · simp only [Bool.not_eq_true] at hl
        simp [runCapture, onClick, hl, List.find?_cons, ih]

end KeyClick

/-- C1: For every current state S and target T, `transition` returns True iff
T == S or T is in S's allowed-transition set; the stored state becomes T
exactly when the call succeeds with T different from S, and otherwise (in
particular on every failed call) the state is unchanged; the function is
total, so no exception is raised. -/
theorem KeyClick.transition_iff_allowed :
    ∀ s t : KeyClick.AppState,
      ((KeyClick.transition s t).ok = true ↔
        (t = s ∨ t ∈ KeyClick.VALID_TRANSITIONS s)) ∧
      ((KeyClick.transition s t).state =
        if (KeyClick.transition s t).ok = true ∧ t ≠ s then t else s) := by
  intro s t
  cases s <;> cases t <;> decide

/-- C3: against the claim, not every malformed configuration file is
replaced with the default configuration: a file holding valid JSON whose
top level is not an object — here the JSON text `[]` — makes `load` raise
an uncaught TypeError (the `except` clause catches only `JSONDecodeError`
and `OSError`), contradicting the claim (and the function's own docstring,
which promises to create the default config when the file is corrupt). -/
theorem KeyClick.load_error_on_json_array :
    KeyClick.configLoad (.parsed (.arr [])) = .error () := rfl

/-- C5: round-trip persistence — saving a well-typed binding set and
settings record and reloading the resulting file succeeds without touching
the data, and the reloaded configuration yields exactly the saved mappings
and settings. -/
theorem KeyClick.config_round_trip
    (bs : List (String × Int × Int)) (restore foreground : Bool)
    (title : String) :
    KeyClick.configLoad
        (KeyClick.configSave (KeyClick.mkConfigDoc bs restore foreground title)) =
      .ok (KeyClick.mkConfigDoc bs restore foreground title, false) ∧
    KeyClick.get_mappings (KeyClick.mkConfigDoc bs restore foreground title) =
      .ok (KeyClick.encodeMappings bs) ∧
    KeyClick.get_settings (KeyClick.mkConfigDoc bs restore foreground title) =
      .ok (KeyClick.encodeSettings restore foreground title) := by
  refine ⟨?_, ?_, ?_⟩ <;>
    simp [KeyClick.configLoad, KeyClick.configSave, KeyClick.mkConfigDoc,
      KeyClick.jContains, KeyClick.dictGet, KeyClick.get_mappings,
      KeyClick.get_settings, KeyClick.bind_ok_eq]

/-- C6: in state CONFIG_WAIT_KEY, any incoming (normalized) key-press is
recorded as the pending key, the machine moves to CONFIG_WAIT_CLICK, and
the one-shot mouse capture is started. -/
theorem KeyClick.config_wait_key_captures_any_key
    (c : KeyClick.Ctrl) (key : String) (focus : KeyClick.FocusInfo)
    (h : c.state = .CONFIG_WAIT_KEY) :
    KeyClick.onKeyPressed c key focus =
      .ok ({ c with
              state := .CONFIG_WAIT_CLICK
              pending_key := some key
              capture_active := true }, []) := by
  simp [KeyClick.onKeyPressed, h, KeyClick.transition, KeyClick.VALID_TRANSITIONS]

/-- Witness for C6 at a concrete controller state and key. -/
theorem KeyClick.config_wait_key_captures_any_key_witness :
    KeyClick.onKeyPressed
        ⟨.CONFIG_WAIT_KEY, none, KeyClick.DEFAULT_CONFIG, false⟩ "f1" .noWin32 =
      .ok (⟨.CONFIG_WAIT_CLICK, some "f1", KeyClick.DEFAULT_CONFIG, true⟩, []) :=
  KeyClick.config_wait_key_captures_any_key
    ⟨.CONFIG_WAIT_KEY, none, KeyClick.DEFAULT_CONFIG, false⟩ "f1" .noWin32 rfl

/-- C7: the toggle enable/disable intent sends DISABLED to NORMAL and
NORMAL to DISABLED, and from either CONFIG state it leaves the whole
controller (in particular the state) unchanged. -/
theorem KeyClick.toggle_system_spec (c : KeyClick.Ctrl) :
    KeyClick.onToggleSystem c =
      { c with state :=
          (match c.state with
           | .DISABLED => .NORMAL
           | .NORMAL => .DISABLED
           | s => s) } := by
  obtain ⟨st, pk, dt, ca⟩ := c
  cases st <;>
    simp [KeyClick.onToggleSystem, KeyClick.transition,
      KeyClick.VALID_TRANSITIONS]

/-- C8: in state NORMAL, a key-press whose key-name has no binding in the
store produces no actuator call and leaves the controller unchanged. -/
theorem KeyClick.unmapped_key_noop
    (c : KeyClick.Ctrl) (key : String) (focus : KeyClick.FocusInfo)
    (h₁ : c.state = .NORMAL)
    (h₂ : KeyClick.get_mapping c.data key = .ok none) :
    KeyClick.onKeyPressed c key focus = .ok (c, []) := by
  simp [KeyClick.onKeyPressed, h₁, h₂, KeyClick.bind_ok_eq]

/-- Witness for C8: pressing the unbound key "z" on the default (empty)
configuration. -/
theorem KeyClick.unmapped_key_noop_witness :
    KeyClick.onKeyPressed
        ⟨.NORMAL, none, KeyClick.DEFAULT_CONFIG, false⟩ "z" .noWin32 =
      .ok (⟨.NORMAL, none, KeyClick.DEFAULT_CONFIG, false⟩, []) :=
  KeyClick.unmapped_key_noop
    ⟨.NORMAL, none, KeyClick.DEFAULT_CONFIG, false⟩ "z" .noWin32 rfl rfl

/-- C9: per activation, the one-shot mouse capture emits exactly the first
left-button press seen while active (if any) and deactivates on it; at most
one event is ever emitted; and when no left-button press occurs the capture
neither emits nor is consumed — it stays active with the listener running. -/
theorem KeyClick.one_shot_capture (evs : List KeyClick.MouseEvent) :
    ((KeyClick.runCapture (KeyClick.captureStart ⟨false, false⟩) evs).2 =
      match evs.find? KeyClick.isLeftPress with
      | some e => [(e.x, e.y)]
      | none => []) ∧
    ((KeyClick.runCapture (KeyClick.captureStart ⟨false, false⟩) evs).2.length ≤ 1) ∧
    (∀ e, evs.find? KeyClick.isLeftPress = some e →
      (KeyClick.runCapture (KeyClick.captureStart ⟨false, false⟩) evs).1 =
        ⟨false, false⟩) ∧
    (evs.find? KeyClick.isLeftPress = none →
      KeyClick.runCapture (KeyClick.captureStart ⟨false, false⟩) evs =
        (⟨true, true⟩, [])) := by
  have hs : KeyClick.captureStart ⟨false, false⟩ =
      (⟨true, true⟩ : KeyClick.MouseClickCapture) := rfl
  rw [hs, KeyClick.runCapture_char evs]
  cases hf : evs.find? KeyClick.isLeftPress <;>
    simp_all

/-- Witness for C9: a right press is ignored and does not consume the
one-shot; then the first left press is the one emitted, a later left press
is not. -/
theorem KeyClick.one_shot_capture_witness :
    ((KeyClick.runCapture (KeyClick.captureStart ⟨false, false⟩)
        [⟨1, 2, .right, true⟩, ⟨3, 4, .left, true⟩, ⟨5, 6, .left, true⟩]).2 =
      [(3, 4)]) ∧
    (KeyClick.runCapture (KeyClick.captureStart ⟨false, false⟩)
        [⟨1, 2, .left, false⟩, ⟨7, 8, .right, true⟩] =
      (⟨true, true⟩, [])) := by
  constructor
  · have h :=
      (KeyClick.one_shot_capture
        [⟨1, 2, .right, true⟩, ⟨3, 4, .left, true⟩, ⟨5, 6, .left, true⟩]).1
    simpa using h
  · exact (KeyClick.one_shot_capture
      [⟨1, 2, .left, false⟩, ⟨7, 8, .right, true⟩]).2.2.2 rfl

namespace KeyClick

theorem onKeyPressed_normal_preserves
    (c : Ctrl) (key : String) (focus : FocusInfo) (h : c.state = .NORMAL)
    (r : Ctrl × List (JVal × JVal × JVal))
    (hr : onKeyPressed c key focus = .ok r) : r.1 = c := by
  rw [onKeyPressed, if_neg (by rw [h]; exact fun hh => by cases hh),
    if_pos h] at hr
  cases hgm : get_mapping c.data key with
  | error e => simp only [hgm, bind_error_eq] at hr; cases hr
  | ok m =>
      simp only [hgm, bind_ok_eq] at hr
      cases m with
      | none => injection hr with h₂; subst h₂; rfl
      | some p =>
          obtain ⟨x, y⟩ := p
          dsimp only at hr
          cases hrq : get_setting c.data "require_foreground_window" (.bool false) with
          | error e => simp only [hrq, bind_error_eq] at hr; cases hr
          | ok req =>
              simp only [hrq, bind_ok_eq] at hr
              by_cases hj : jTruthy req = true
              · simp only [hj, if_true] at hr
                cases htt : get_setting c.data "target_window_title" (.str "Valeton") with
                | error e => simp only [htt, bind_error_eq] at hr; cases hr
                | ok title =>
                    simp only [htt, bind_ok_eq] at hr
                    by_cases hf : is_target_window_foreground title focus = true
                    · simp only [hf, if_true] at hr
                      cases hre : get_setting c.data "restore_mouse_position" (.bool true) with
                      | error e => simp only [hre, bind_error_eq] at hr; cases hr
                      | ok restore =>
                          simp only [hre, bind_ok_eq] at hr
                          injection hr with h₂; subst h₂; rfl
                    · simp only [Bool.not_eq_true] at hf
                      simp only [hf, Bool.false_eq_true, if_false] at hr
                      injection hr with h₂; subst h₂; rfl
              · simp only [Bool.not_eq_true] at hj
                simp only [hj, Bool.false_eq_true, if_false, bind_ok_eq,
                  if_true] at hr
                cases hre : get_setting c.data "restore_mouse_position" (.bool true) with
                | error e => simp only [hre, bind_error_eq] at hr; cases hr
                | ok restore =>
                    simp only [hre, bind_ok_eq] at hr
                    injection hr with h₂; subst h₂; rfl

end KeyClick

/-- C2: a mouse-click-captured event at (x, y) is ignored entirely when the
state is not CONFIG_WAIT_CLICK; otherwise the pending key is consumed, the
binding (pending_key, x, y) is committed to the store and the machine
returns to NORMAL — except that an empty pending key just returns the
machine to NORMAL without committing; afterwards a second stray click is a
no-op. -/
theorem KeyClick.mouse_clicked_spec (c : KeyClick.Ctrl) (x y : Int) :
    (c.state ≠ .CONFIG_WAIT_CLICK → KeyClick.onMouseClicked c x y = .ok c) ∧
    (c.state = .CONFIG_WAIT_CLICK →
      (c.pending_key = none →
        KeyClick.onMouseClicked c x y =
          .ok { c with pending_key := none, state := .NORMAL }) ∧
      (∀ k d, c.pending_key = some k →
        KeyClick.set_mapping c.data k x y = .ok d →
        KeyClick.onMouseClicked c x y =
          .ok { c with pending_key := none, data := d, state := .NORMAL } ∧
        KeyClick.get_mapping d k = .ok (some (.num x, .num y)) ∧
        (∀ x₂ y₂ : Int,
          KeyClick.onMouseClicked
              { c with pending_key := none, data := d, state := .NORMAL } x₂ y₂ =
            .ok { c with pending_key := none, data := d, state := .NORMAL }))) := by
  constructor
  · intro h
    simp [KeyClick.onMouseClicked, h]
  · intro h
    constructor
    · intro hp
      simp [KeyClick.onMouseClicked, h, hp, KeyClick.transition,
        KeyClick.VALID_TRANSITIONS]
    · intro k d hp hset
      refine ⟨?_, KeyClick.get_mapping_set_mapping _ _ _ _ _ hset, ?_⟩
      · simp [KeyClick.onMouseClicked, h, hp, hset, KeyClick.bind_ok_eq,
          KeyClick.transition, KeyClick.VALID_TRANSITIONS]
      · intro x₂ y₂
        simp [KeyClick.onMouseClicked]

/-- Witness for C2: concrete committed click, empty-pending click, and
stale click. -/
theorem KeyClick.mouse_clicked_spec_witness :
    (KeyClick.onMouseClicked
        ⟨.CONFIG_WAIT_CLICK, some "a", KeyClick.DEFAULT_CONFIG, true⟩ 10 20 =
      .ok ⟨.NORMAL, none,
        .obj [("mappings", .obj [("a", .obj [("x", .num 10), ("y", .num 20)])]),
              ("settings", KeyClick.defaultSettings)], true⟩) ∧
    (KeyClick.onMouseClicked
        ⟨.CONFIG_WAIT_CLICK, none, KeyClick.DEFAULT_CONFIG, true⟩ 10 20 =
      .ok ⟨.NORMAL, none, KeyClick.DEFAULT_CONFIG, true⟩) ∧
    (KeyClick.onMouseClicked
        ⟨.NORMAL, none, KeyClick.DEFAULT_CONFIG, false⟩ 10 20 =
      .ok ⟨.NORMAL, none, KeyClick.DEFAULT_CONFIG, false⟩) := by
  refine ⟨?_, ?_, ?_⟩
  · exact (((KeyClick.mouse_clicked_spec
      ⟨.CONFIG_WAIT_CLICK, some "a", KeyClick.DEFAULT_CONFIG, true⟩ 10 20).2
        rfl).2 "a"
      (.obj [("mappings", .obj [("a", .obj [("x", .num 10), ("y", .num 20)])]),
             ("settings", KeyClick.defaultSettings)]) rfl rfl).1
  · exact ((KeyClick.mouse_clicked_spec
      ⟨.CONFIG_WAIT_CLICK, none, KeyClick.DEFAULT_CONFIG, true⟩ 10 20).2
        rfl).1 rfl
  · exact (KeyClick.mouse_clicked_spec
      ⟨.NORMAL, none, KeyClick.DEFAULT_CONFIG, false⟩ 10 20).1 (by decide)

/-- C4: the window-focus check is a case-insensitive substring match of the
configured title against the focused window's title and returns true
(fail-open) whenever focus information cannot be obtained; consequently,
with require_foreground_window set and a non-matching focused title, a
bound key dispatched in NORMAL produces zero actuator invocations, while a
focus-lookup failure lets the click proceed. -/
theorem KeyClick.focus_gate_spec (c : KeyClick.Ctrl) (key s fg : String)
    (x y : KeyClick.JVal) :
    (KeyClick.is_target_window_foreground (.str s) (.fgTitle fg) = true ↔
      ∃ u v, u ++ (KeyClick.lowerChars s ++ v) = KeyClick.lowerChars fg) ∧
    (∀ title : KeyClick.JVal,
      KeyClick.is_target_window_foreground title .noWin32 = true ∧
      KeyClick.is_target_window_foreground title .fgError = true) ∧
    (c.state = .NORMAL →
      KeyClick.get_mapping c.data key = .ok (some (x, y)) →
      KeyClick.get_setting c.data "require_foreground_window" (.bool false) =
        .ok (.bool true) →
      KeyClick.get_setting c.data "target_window_title" (.str "Valeton") =
        .ok (.str s) →
      (KeyClick.is_target_window_foreground (.str s) (.fgTitle fg) = false →
        KeyClick.onKeyPressed c key (.fgTitle fg) = .ok (c, [])) ∧
      (∀ restore,
        KeyClick.get_setting c.data "restore_mouse_position" (.bool true) =
          .ok restore →
        KeyClick.onKeyPressed c key .fgError = .ok (c, [(x, y, restore)]))) := by
  refine ⟨?_, ?_, ?_⟩
  · exact KeyClick.subOf_iff (KeyClick.lowerChars s) (KeyClick.lowerChars fg)
  · intro title
    exact ⟨rfl, rfl⟩
  · intro hst hm hreq htitle
    constructor
    · intro hfoc
      simp [KeyClick.onKeyPressed, hst, hm, hreq, htitle, hfoc,
        KeyClick.bind_ok_eq, KeyClick.jTruthy]
    · intro restore hres
      simp [KeyClick.onKeyPressed, hst, hm, hreq, htitle, hres,
        KeyClick.bind_ok_eq, KeyClick.jTruthy,
        KeyClick.is_target_window_foreground]

/-- Witness for C4: with the foreground requirement on and target title
"Valeton", pressing bound key "a" with "Other Window" focused clicks
nothing; the same key press under a focus-lookup failure clicks once. -/
theorem KeyClick.focus_gate_spec_witness :
    (KeyClick.onKeyPressed
        ⟨.NORMAL, none,
          .obj [("mappings", .obj [("a", .obj [("x", .num 5), ("y", .num 7)])]),
                ("settings",
                 .obj [("restore_mouse_position", .bool true),
                       ("require_foreground_window", .bool true),
                       ("target_window_title", .str "Valeton")])], false⟩
        "a" (.fgTitle "Other Window") =
      .ok (⟨.NORMAL, none,
          .obj [("mappings", .obj [("a", .obj [("x", .num 5), ("y", .num 7)])]),
                ("settings",
                 .obj [("restore_mouse_position", .bool true),
                       ("require_foreground_window", .bool true),
                       ("target_window_title", .str "Valeton")])], false⟩, [])) ∧
    (KeyClick.onKeyPressed
        ⟨.NORMAL, none,
          .obj [("mappings", .obj [("a", .obj [("x", .num 5), ("y", .num 7)])]),
                ("settings",
                 .obj [("restore_mouse_position", .bool true),
                       ("require_foreground_window", .bool true),
                       ("target_window_title", .str "Valeton")])], false⟩
        "a" .fgError =
      .ok (⟨.NORMAL, none,
          .obj [("mappings", .obj [("a", .obj [("x", .num 5), ("y", .num 7)])]),
                ("settings",
                 .obj [("restore_mouse_position", .bool true),
                       ("require_foreground_window", .bool true),
                       ("target_window_title", .str "Valeton")])], false⟩,
        [(.num 5, .num 7, .bool true)])) := by
  constructor
  · exact ((KeyClick.focus_gate_spec
      ⟨.NORMAL, none,
        .obj [("mappings", .obj [("a", .obj [("x", .num 5), ("y", .num 7)])]),
              ("settings",
               .obj [("restore_mouse_position", .bool true),
                     ("require_foreground_window", .bool true),
                     ("target_window_title", .str "Valeton")])], false⟩
      "a" "Valeton" "Other Window" (.num 5) (.num 7)).2.2
        rfl rfl rfl rfl).1 (by decide)
  · exact ((KeyClick.focus_gate_spec
      ⟨.NORMAL, none,
        .obj [("mappings", .obj [("a", .obj [("x", .num 5), ("y", .num 7)])]),
              ("settings",
               .obj [("restore_mouse_position", .bool true),
                     ("require_foreground_window", .bool true),
                     ("target_window_title", .str "Valeton")])], false⟩
      "a" "Valeton" "Other Window" (.num 5) (.num 7)).2.2
        rfl rfl rfl rfl).2 (.bool true) rfl

/-- C10: in state NORMAL, dispatching a bound key never changes the
controller (machine state, pending key, stored bindings and capture flag
are all preserved in every successful outcome), and when the click actually
executes the only effect is the single actuator invocation. -/
theorem KeyClick.normal_dispatch_frame (c : KeyClick.Ctrl) (key : String)
    (focus : KeyClick.FocusInfo) (h : c.state = .NORMAL) :
    (∀ r, KeyClick.onKeyPressed c key focus = .ok r → r.1 = c) ∧
    (∀ x y restore : KeyClick.JVal,
      KeyClick.get_mapping c.data key = .ok (some (x, y)) →
      KeyClick.get_setting c.data "require_foreground_window" (.bool false) =
        .ok (.bool false) →
      KeyClick.get_setting c.data "restore_mouse_position" (.bool true) =
        .ok restore →
      KeyClick.onKeyPressed c key focus = .ok (c, [(x, y, restore)])) := by
  constructor
  · intro r hr
    exact KeyClick.onKeyPressed_normal_preserves c key focus h r hr
  · intro x y restore hm hreq hres
    simp [KeyClick.onKeyPressed, h, hm, hreq, hres, KeyClick.bind_ok_eq,
      KeyClick.jTruthy]

/-- Witness for C10: pressing bound key "a" on the default settings
(foreground requirement off) clicks exactly once at (5, 7) and leaves the
controller unchanged. -/
theorem KeyClick.normal_dispatch_frame_witness :
    KeyClick.onKeyPressed
        ⟨.NORMAL, none,
          .obj [("mappings", .obj [("a", .obj [("x", .num 5), ("y", .num 7)])]),
                ("settings", KeyClick.defaultSettings)], false⟩
        "a" .noWin32 =
      .ok (⟨.NORMAL, none,
          .obj [("mappings", .obj [("a", .obj [("x", .num 5), ("y", .num 7)])]),
                ("settings", KeyClick.defaultSettings)], false⟩,
        [(.num 5, .num 7, .bool true)]) :=
  (KeyClick.normal_dispatch_frame
      ⟨.NORMAL, none,
        .obj [("mappings", .obj [("a", .obj [("x", .num 5), ("y", .num 7)])]),
              ("settings", KeyClick.defaultSettings)], false⟩
      "a" .noWin32 rfl).2 (.num 5) (.num 7) (.bool true) rfl rfl rfl
